import Mathlib

/-!
Shallow embedding of the dual-pane comparison viewer and the source
multi-select state machine of the imagery review frontend.

The relevant code lives in three React components:
* `ComparisonModal.jsx` — pane transforms (scale/translate), wheel zoom,
  drag panning, sync mode, and the four navigation cursors;
* `ProductDetail.jsx` — the selected-source list, the last-clicked index,
  the active generated-image cursor, and the prompt panel rendering;
* `App.jsx` — the `onCompare` callback that seeds and opens the modal.

JavaScript numbers are modelled as exact rationals (`ℚ`); the wheel
sensitivity constant `-0.001` becomes `-1/1000`.  React `useState` cells
are gathered into one record per component, and each event handler
becomes a pure state-transition function on that record.
-/

namespace ImageryWorkflow

/-- The two panes of the comparison modal, `'src'` and `'ai'` in the code. -/
inductive Pane
  | src
  | ai
deriving DecidableEq, Repr

/-- Per-pane view state, `{ scale, x, y }` in `ComparisonModal.jsx`
(created as `{ scale: 1, x: 0, y: 0 }`). -/
structure PaneTransform where
  scale : ℚ
  x : ℚ
  y : ℚ
deriving DecidableEq, Repr

/-- The prompt pair carried by a generated image:
`prompts: { positive, negative }`, where `negative` may be absent. -/
structure GenPrompts where
  positive : String
  negative : Option String
deriving DecidableEq, Repr

/-- A generated (candidate) image record as consumed by the frontend:
`{ path, engine_version, model_id, prompts }`. -/
structure GenImage where
  path : String
  engine_version : String
  model_id : String
  prompts : GenPrompts
deriving DecidableEq, Repr

/-- The complete state of one open `ComparisonModal`: the two image-list
props, the `srcIndex`/`aiIndex` cursors, the two pane transforms, the
sync toggle, the dragging pane, and the `dragStart` ref. -/
structure Session where
  sourceImages : List String
  aiImages : List GenImage
  srcIndex : Nat
  aiIndex : Nat
  srcState : PaneTransform
  aiState : PaneTransform
  isSynced : Bool
  draggingPane : Option Pane
  dragStartX : ℚ
  dragStartY : ℚ
deriving DecidableEq, Repr

/-- `nextSrc`: `setSrcIndex(prev => (prev + 1) % sourceImages.length)`. -/
def nextSrc (s : Session) : Session :=
  { s with srcIndex := (s.srcIndex + 1) % s.sourceImages.length }

/-- `prevSrc`: `setSrcIndex(prev => (prev - 1 + sourceImages.length) % sourceImages.length)`.
Over `Nat` the JS expression `prev - 1 + n` is written `prev + n - 1`,
which is equal to it whenever `1 ≤ prev + n` (always the case here for a
non-empty list since `prev ≥ 0`, `n ≥ 1`). -/
def prevSrc (s : Session) : Session :=
  { s with srcIndex := (s.srcIndex + s.sourceImages.length - 1) % s.sourceImages.length }

/-- `nextAi`: `setAiIndex(prev => (prev + 1) % aiImages.length)`. -/
def nextAi (s : Session) : Session :=
  { s with aiIndex := (s.aiIndex + 1) % s.aiImages.length }

/-- `prevAi`: `setAiIndex(prev => (prev - 1 + aiImages.length) % aiImages.length)`
(same `Nat` rewriting as `prevSrc`). -/
def prevAi (s : Session) : Session :=
  { s with aiIndex := (s.aiIndex + s.aiImages.length - 1) % s.aiImages.length }

/-- The closure `updateState` inside `handleWheel`:
`newScale = Math.min(Math.max(0.5, prev.scale + delta), 5)`, keeping
`x`/`y` via `{ ...prev, scale: newScale }`. -/
def updateState (delta : ℚ) (prev : PaneTransform) : PaneTransform :=
  { prev with scale := min (max (1/2) (prev.scale + delta)) 5 }

/-- `handleWheel(e, pane)`: computes `delta = e.deltaY * -0.001` and then
applies `updateState` to both panes when synced, else only to the
originating pane. -/
def handleWheel (s : Session) (deltaY : ℚ) (pane : Pane) : Session :=
  let delta := deltaY * (-1/1000)
  if s.isSynced then
    { s with srcState := updateState delta s.srcState,
             aiState := updateState delta s.aiState }
  else
    match pane with
    | Pane.src => { s with srcState := updateState delta s.srcState }
    | Pane.ai => { s with aiState := updateState delta s.aiState }

/-- `handleMouseDown(e, pane)`: records the dragging pane and
`dragStart = { x: e.clientX - currentState.x, y: e.clientY - currentState.y }`. -/
def handleMouseDown (s : Session) (clientX clientY : ℚ) (pane : Pane) : Session :=
  let currentState := match pane with
    | Pane.src => s.srcState
    | Pane.ai => s.aiState
  { s with draggingPane := some pane,
           dragStartX := clientX - currentState.x,
           dragStartY := clientY - currentState.y }

/-- `handleMouseMove(e)`: no-op unless a pane is being dragged; otherwise
computes `newX/newY = client - dragStart` and writes them into both pane
transforms when synced, else only into the dragged pane. -/
def handleMouseMove (s : Session) (clientX clientY : ℚ) : Session :=
  match s.draggingPane with
  | none => s
  | some p =>
    let newX := clientX - s.dragStartX
    let newY := clientY - s.dragStartY
    if s.isSynced then
      { s with srcState := { s.srcState with x := newX, y := newY },
               aiState := { s.aiState with x := newX, y := newY } }
    else
      match p with
      | Pane.src => { s with srcState := { s.srcState with x := newX, y := newY } }
      | Pane.ai => { s with aiState := { s.aiState with x := newX, y := newY } }

/-- `handleMouseUp`: `setDraggingPane(null)`. -/
def handleMouseUp (s : Session) : Session :=
  { s with draggingPane := none }

/-- A product record as consumed by `ProductDetail` (only the fields the
selection machine reads: `ghost_images` and `generated_images`). -/
structure Product where
  ghost_images : List String
  generated_images : List GenImage
deriving DecidableEq, Repr

/-- The `useState` cells of `ProductDetail` that the selection machine
mutates: `selectedSources`, `lastClickedIndex`, `activeGenIndex`. -/
structure DetailState where
  selectedSources : List String
  lastClickedIndex : Nat
  activeGenIndex : Nat
deriving DecidableEq, Repr

/-- The modifier-key fields of a click event read by `handleSourceClick`. -/
structure ClickEvent where
  metaKey : Bool
  ctrlKey : Bool
  shiftKey : Bool
deriving DecidableEq, Repr

/-- The `useEffect(..., [data])` body of `ProductDetail`: when the product
record changes, re-seed `selectedSources` to `[ghost_images[0]]` if the
list is non-empty, else to `[]`; reset `lastClickedIndex` and
`activeGenIndex` to `0`. -/
def effectOnData (data : Product) (s : DetailState) : DetailState :=
  let s1 :=
    match data.ghost_images with
    | [] => { s with selectedSources := [], lastClickedIndex := 0 }
    | first :: _ => { s with selectedSources := [first], lastClickedIndex := 0 }
  { s1 with activeGenIndex := 0 }

/-- The multi-select branch of `handleSourceClick`: if `url` is already in
`selectedSources`, remove it with `filter(s => s !== url)`; else append it
with `[...selectedSources, url]`. -/
def toggleInSel (sel : List String) (url : String) : List String :=
  if url ∈ sel then sel.filter (fun s => s ≠ url) else sel ++ [url]

/-- `handleSourceClick(url, index, e)`: derives
`isMultiSelect = e.metaKey || e.ctrlKey || e.shiftKey`; multi-select
toggles membership, plain click replaces the selection with `[url]`;
`lastClickedIndex` is always updated to `index`. -/
def handleSourceClick (url : String) (index : Nat) (e : ClickEvent)
    (s : DetailState) : DetailState :=
  let isMultiSelect := e.metaKey || e.ctrlKey || e.shiftKey
  let s1 :=
    if isMultiSelect then
      { s with selectedSources := toggleInSel s.selectedSources url }
    else
      { s with selectedSources := [url] }
  { s1 with lastClickedIndex := index }

/-- The `disabled` condition of the Compare button:
`!hasSelection || !activeGen` with `hasSelection = selectedSources.length > 0`
and `activeGen = data.generated_images?.[activeGenIndex]`. -/
def compareDisabled (data : Product) (s : DetailState) : Bool :=
  decide (s.selectedSources.length = 0) ||
    (data.generated_images.get? s.activeGenIndex).isNone

/-- JavaScript `x || fallback` on an optional string: the fallback is
taken exactly when `x` is falsy, i.e. absent or the empty string. -/
def jsOrString (x : Option String) (fallback : String) : String :=
  match x with
  | none => fallback
  | some s => if s = "" then fallback else s

/-- Which tab of the prompt panel is active (`promptTab` state). -/
inductive PromptTab
  | positive
  | negative
deriving DecidableEq, Repr

/-- The prompt panel body of `ProductDetail`:
`promptTab === 'positive' ? activeGen.prompts.positive
 : (activeGen.prompts.negative || 'No negative prompt.')`. -/
def promptPanelText (tab : PromptTab) (activeGen : GenImage) : String :=
  match tab with
  | PromptTab.positive => activeGen.prompts.positive
  | PromptTab.negative => jsOrString activeGen.prompts.negative "No negative prompt."

/-- The comparison-related `useState` cells of `App`. -/
structure AppState where
  compareModalOpen : Bool
  srcListForCompare : List String
  srcIndexForCompare : Nat
  aiListForCompare : List GenImage
  aiIndexForCompare : Nat
deriving DecidableEq, Repr

/-- The `onCompare(srcIdx, aiIdx)` callback in `App.jsx`: copies the
current product's image lists and the two indices into the compare state
and unconditionally sets `compareModalOpen` to `true` (no emptiness
check on either list). -/
def onCompare (currentProductData : Product) (srcIdx aiIdx : Nat)
    (s : AppState) : AppState :=
  { s with srcListForCompare := currentProductData.ghost_images,
           srcIndexForCompare := srcIdx,
           aiListForCompare := currentProductData.generated_images,
           aiIndexForCompare := aiIdx,
           compareModalOpen := true }

/-! ### Concrete fixtures used by witnesses and counterexamples -/

/-- A concrete generated image used by the concrete scenarios below. -/
def genImageA : GenImage :=
  { path := "out/a.png", engine_version := "v2_nanobananapro",
    model_id := "gemini-3-pro", prompts := { positive := "studio shot", negative := none } }

/-- A product with two ghost images and one generated image. -/
def productAB : Product :=
  { ghost_images := ["urlA", "urlB"], generated_images := [genImageA] }

/-- A product with no images at all. -/
def emptyProduct : Product :=
  { ghost_images := [], generated_images := [] }

/-- The `App` compare state before any session is opened. -/
def initialAppState : AppState :=
  { compareModalOpen := false, srcListForCompare := [], srcIndexForCompare := 0,
    aiListForCompare := [], aiIndexForCompare := 0 }

/-- The `ProductDetail` state as initialised by `useState`. -/
def detailStart : DetailState :=
  { selectedSources := [], lastClickedIndex := 0, activeGenIndex := 0 }

/-- A click with no modifier key held. -/
def plainClick : ClickEvent := { metaKey := false, ctrlKey := false, shiftKey := false }

/-- A click with the command/meta key held. -/
def metaClick : ClickEvent := { metaKey := true, ctrlKey := false, shiftKey := false }

/-- A synced session whose two panes have diverged scales (1 and 2). -/
def divergedSession : Session :=
  { sourceImages := ["urlA"], aiImages := [genImageA], srcIndex := 0, aiIndex := 0,
    srcState := { scale := 1, x := 0, y := 0 }, aiState := { scale := 2, x := 0, y := 0 },
    isSynced := true, draggingPane := none, dragStartX := 0, dragStartY := 0 }

/-- A session with one source image, three candidates and both cursors
at 0. -/
def navSession : Session :=
  { sourceImages := ["urlA"],
    aiImages := [genImageA, genImageA, genImageA],
    srcIndex := 0, aiIndex := 0,
    srcState := { scale := 1, x := 0, y := 0 }, aiState := { scale := 1, x := 0, y := 0 },
    isSynced := false, draggingPane := none, dragStartX := 0, dragStartY := 0 }

/-- A synced session with equal pane scales and an active drag on the
source pane, with distinct translations on the two panes. -/
def draggingSession : Session :=
  { sourceImages := ["urlA"], aiImages := [genImageA], srcIndex := 0, aiIndex := 0,
    srcState := { scale := 1, x := 3, y := 4 }, aiState := { scale := 1, x := -5, y := 6 },
    isSynced := true, draggingPane := some Pane.src, dragStartX := 10, dragStartY := 20 }

/-! ### Helper lemmas -/

/-- Iterating `nextSrc` adds to the source cursor modulo the (unchanged)
source-list length. -/
lemma nextSrc_iterate (k : Nat) : ∀ (s : Session),
    s.srcIndex < s.sourceImages.length →
    (nextSrc^[k] s).sourceImages = s.sourceImages ∧
    (nextSrc^[k] s).srcIndex = (s.srcIndex + k) % s.sourceImages.length := by
  induction k with
  | zero =>
    intro s h
    simp [Nat.mod_eq_of_lt h]
  | succ k ih =>
    intro s h
    have hn : 0 < s.sourceImages.length := Nat.lt_of_le_of_lt (Nat.zero_le _) h
    have h1 : (nextSrc s).srcIndex < (nextSrc s).sourceImages.length := by
      simpa [nextSrc] using Nat.mod_lt _ hn
    rw [Function.iterate_succ_apply]
    obtain ⟨hl, hi⟩ := ih (nextSrc s) h1
    refine ⟨hl, ?_⟩
    rw [hi]
    simp only [nextSrc]
    rw [Nat.mod_add_mod]
    congr 1
    omega

/-- Iterating `nextAi` adds to the candidate cursor modulo the
(unchanged) candidate-list length. -/
lemma nextAi_iterate (k : Nat) : ∀ (s : Session),
    s.aiIndex < s.aiImages.length →
    (nextAi^[k] s).aiImages = s.aiImages ∧
    (nextAi^[k] s).aiIndex = (s.aiIndex + k) % s.aiImages.length := by
  induction k with
  | zero =>
    intro s h
    simp [Nat.mod_eq_of_lt h]
  | succ k ih =>
    intro s h
    have hn : 0 < s.aiImages.length := Nat.lt_of_le_of_lt (Nat.zero_le _) h
    have h1 : (nextAi s).aiIndex < (nextAi s).aiImages.length := by
      simpa [nextAi] using Nat.mod_lt _ hn
    rw [Function.iterate_succ_apply]
    obtain ⟨hl, hi⟩ := ih (nextAi s) h1
    refine ⟨hl, ?_⟩
    rw [hi]
    simp only [nextAi]
    rw [Nat.mod_add_mod]
    congr 1
    omega

/-- Casting the `Nat` rewriting of the JS `(i - 1 + n) % n` back to `ℤ`
recovers the original expression for `n ≥ 1`. -/
lemma prev_index_cast (i n : Nat) (h : 1 ≤ n) :
    (((i + n - 1) % n : Nat) : ℤ) = ((i : ℤ) - 1 + n) % n := by
  have h2 : ((i + n - 1 : Nat) : ℤ) = (i : ℤ) - 1 + n := by omega
  rw [Int.natCast_mod, h2]

/-! ### Theorems -/

/-- C2: for every pane transform and wheel `deltaY`, the zoom update
(`updateState` applied to `delta = deltaY * -0.001` as in `handleWheel`)
produces the new scale `clamp(old.scale - deltaY * 0.001, 0.5, 5.0)`, so
after every zoom the scale lies in `[0.5, 5.0]` regardless of the input's
magnitude or sign. -/
theorem applyZoom_clamps (t : PaneTransform) (deltaY : ℚ) :
    (updateState (deltaY * (-1/1000)) t).scale
        = min (max (1/2) (t.scale - deltaY * (1/1000))) 5 ∧
    1/2 ≤ (updateState (deltaY * (-1/1000)) t).scale ∧
    (updateState (deltaY * (-1/1000)) t).scale ≤ 5 := by
  refine ⟨?_, ?_, ?_⟩
  · have h : t.scale + deltaY * (-1/1000) = t.scale - deltaY * (1/1000) := by ring
    simp [updateState, h]
  · exact le_min (le_max_left _ _) (by norm_num)
  · exact min_le_right _ _

/-- C3: a wheel zoom event never changes either pane's translation:
`handleWheel` leaves `x` and `y` of both pane transforms unchanged, in
every sync mode and from either originating pane. -/
theorem applyZoom_preserves_translation (s : Session) (deltaY : ℚ) (p : Pane) :
    (handleWheel s deltaY p).srcState.x = s.srcState.x ∧
    (handleWheel s deltaY p).srcState.y = s.srcState.y ∧
    (handleWheel s deltaY p).aiState.x = s.aiState.x ∧
    (handleWheel s deltaY p).aiState.y = s.aiState.y := by
  by_cases h : s.isSynced <;> cases p <;> simp [handleWheel, updateState, h]

/-- C6: whenever the product record changes, the `useEffect [data]` body
re-seeds the selection to the singleton of the first ghost image if one
exists (else the empty list) and resets the active candidate cursor to 0,
whatever the previous selection was. -/
theorem reset_on_product_change (data : Product) (s : DetailState) :
    (effectOnData data s).activeGenIndex = 0 ∧
    (effectOnData data s).lastClickedIndex = 0 ∧
    (effectOnData data s).selectedSources =
      (match data.ghost_images with
       | [] => []
       | first :: _ => [first]) := by
  cases h : data.ghost_images <;> simp [effectOnData, h]

/-- C8: a source click is a multi-select (membership toggle) exactly when
`metaKey || ctrlKey || shiftKey` holds on the event; a plain click always
replaces the selection with the singleton `[url]`, regardless of the
prior selection. -/
theorem modifier_or_contract (url : String) (index : Nat) (e : ClickEvent)
    (s : DetailState) :
    (handleSourceClick url index e s).selectedSources =
      (if e.metaKey || e.ctrlKey || e.shiftKey then
        toggleInSel s.selectedSources url
      else [url]) := by
  by_cases h : (e.metaKey || e.ctrlKey || e.shiftKey) = true <;>
    simp [handleSourceClick, h] at *

/-- C9: the negative-prompt panel shows the placeholder
`'No negative prompt.'` exactly when `prompts.negative` is falsy — in
particular when it is the empty string, not only when it is absent. -/
theorem empty_negative_prompt_placeholder (g : GenImage)
    (h : g.prompts.negative = some "" ∨ g.prompts.negative = none) :
    promptPanelText PromptTab.negative g = "No negative prompt." := by
  rcases h with h | h <;> simp [promptPanelText, jsOrString, h]

/-- Witness for C9 at a candidate whose negative prompt is the empty
string. -/
theorem empty_negative_prompt_placeholder_witness :
    promptPanelText PromptTab.negative
      { path := "out/b.png", engine_version := "v1", model_id := "m",
        prompts := { positive := "pos", negative := some "" } }
      = "No negative prompt." :=
  empty_negative_prompt_placeholder _ (Or.inl rfl)

/-- C4: toggling the same image twice returns the selection to its prior
membership, both for `toggleInSel` itself and for two multi-select
clicks on the same URL through `handleSourceClick`. -/
theorem toggle_involutive (sel : List String) (url x : String)
    (idx1 idx2 : Nat) (s : DetailState) :
    ((x ∈ toggleInSel (toggleInSel sel url) url) ↔ x ∈ sel) ∧
    ((x ∈ (handleSourceClick url idx2 metaClick
        (handleSourceClick url idx1 metaClick s)).selectedSources)
      ↔ x ∈ s.selectedSources) := by
  have key : ∀ l : List String, (x ∈ toggleInSel (toggleInSel l url) url) ↔ x ∈ l := by
    intro l
    by_cases h : url ∈ l <;> by_cases hx : x = url <;>
      simp [toggleInSel, h, hx]
  refine ⟨key sel, ?_⟩
  simpa [handleSourceClick, metaClick] using key s.selectedSources

/-- C5: each navigation cursor cycles its own list with wraparound —
`next*` maps `i` to `(i + 1) % n`, `prev*` realises `(i - 1 + n) % n`;
navigating one axis never changes the other cursor; `next*` applied `n`
times returns the cursor to its start; `prev*` from 0 yields `n - 1`;
and on a one-element list both operations are no-ops. -/
theorem nav_wraparound (s : Session) :
    ((nextSrc s).aiIndex = s.aiIndex ∧ (prevSrc s).aiIndex = s.aiIndex ∧
     (nextAi s).srcIndex = s.srcIndex ∧ (prevAi s).srcIndex = s.srcIndex) ∧
    ((nextSrc s).srcIndex = (s.srcIndex + 1) % s.sourceImages.length ∧
     (nextAi s).aiIndex = (s.aiIndex + 1) % s.aiImages.length) ∧
    (1 ≤ s.sourceImages.length →
      ((prevSrc s).srcIndex : ℤ)
        = ((s.srcIndex : ℤ) - 1 + s.sourceImages.length) % s.sourceImages.length) ∧
    (1 ≤ s.aiImages.length →
      ((prevAi s).aiIndex : ℤ)
        = ((s.aiIndex : ℤ) - 1 + s.aiImages.length) % s.aiImages.length) ∧
    (s.srcIndex < s.sourceImages.length →
      (nextSrc^[s.sourceImages.length] s).srcIndex = s.srcIndex) ∧
    (s.aiIndex < s.aiImages.length →
      (nextAi^[s.aiImages.length] s).aiIndex = s.aiIndex) ∧
    (s.srcIndex = 0 → 1 ≤ s.sourceImages.length →
      (prevSrc s).srcIndex = s.sourceImages.length - 1) ∧
    (s.aiIndex = 0 → 1 ≤ s.aiImages.length →
      (prevAi s).aiIndex = s.aiImages.length - 1) ∧
    (s.sourceImages.length = 1 → s.srcIndex = 0 → nextSrc s = s ∧ prevSrc s = s) ∧
    (s.aiImages.length = 1 → s.aiIndex = 0 → nextAi s = s ∧ prevAi s = s) := by
  refine ⟨⟨rfl, rfl, rfl, rfl⟩, ⟨rfl, rfl⟩, ?_, ?_, ?_, ?_, ?_, ?_, ?_, ?_⟩
  · intro h
    simpa [prevSrc] using prev_index_cast s.srcIndex s.sourceImages.length h
  · intro h
    simpa [prevAi] using prev_index_cast s.aiIndex s.aiImages.length h
  · intro h
    rw [(nextSrc_iterate s.sourceImages.length s h).2, Nat.add_mod_right,
      Nat.mod_eq_of_lt h]
  · intro h
    rw [(nextAi_iterate s.aiImages.length s h).2, Nat.add_mod_right,
      Nat.mod_eq_of_lt h]
  · intro h0 h1
    simp only [prevSrc, h0, Nat.zero_add]
    exact Nat.mod_eq_of_lt (by omega)
  · intro h0 h1
    simp only [prevAi, h0, Nat.zero_add]
    exact Nat.mod_eq_of_lt (by omega)
  · intro h1 h0
    cases s
    simp_all [nextSrc, prevSrc]
  · intro h1 h0
    cases s
    simp_all [nextAi, prevAi]

/-- Witness for C5 at a session with one source image and three
candidates, cursors at 0. -/
theorem nav_wraparound_witness :
    (nextSrc navSession = navSession ∧ prevSrc navSession = navSession) ∧
    (nextAi^[3] navSession).aiIndex = 0 ∧
    (prevAi navSession).aiIndex = 2 := by
  have h := nav_wraparound navSession
  exact ⟨h.2.2.2.2.2.2.2.2.1 rfl rfl, h.2.2.2.2.2.1 (by decide),
    h.2.2.2.2.2.2.2.1 rfl (by decide)⟩

/-- C1 counterexample: in a synced session whose pane scales already
differ (1 vs 2), a single zoom event leaves them different (1.1 vs 2.1) —
synced zoom does not make the scales bit-for-bit equal regardless of the
panes' prior values. -/
theorem sync_zoom_not_equalizing :
    divergedSession.isSynced = true ∧
    (handleWheel divergedSession (-100) Pane.src).srcState.scale
      ≠ (handleWheel divergedSession (-100) Pane.src).aiState.scale := by
  refine ⟨rfl, ?_⟩
  simp only [divergedSession, handleWheel, updateState]
  norm_num

/-- C1 amended: when `syncMode` is true, a zoom event applies the same
clamped delta to each pane's own scale (so the scales end equal whenever
they were equal before the event, but previously diverged scales stay
diverged), and a drag-move event writes the same `translateX/translateY`
into both panes regardless of their prior values. -/
theorem sync_coupling (s : Session) (deltaY clientX clientY : ℚ) (p q : Pane)
    (hsync : s.isSynced = true) :
    ((handleWheel s deltaY p).srcState.scale
        = min (max (1/2) (s.srcState.scale + deltaY * (-1/1000))) 5 ∧
     (handleWheel s deltaY p).aiState.scale
        = min (max (1/2) (s.aiState.scale + deltaY * (-1/1000))) 5) ∧
    (s.srcState.scale = s.aiState.scale →
      (handleWheel s deltaY p).srcState.scale
        = (handleWheel s deltaY p).aiState.scale) ∧
    (s.draggingPane = some q →
      (handleMouseMove s clientX clientY).srcState.x
          = (handleMouseMove s clientX clientY).aiState.x ∧
      (handleMouseMove s clientX clientY).srcState.y
          = (handleMouseMove s clientX clientY).aiState.y) := by
  refine ⟨⟨?_, ?_⟩, ?_, ?_⟩
  · simp [handleWheel, hsync, updateState]
  · simp [handleWheel, hsync, updateState]
  · intro h
    simp [handleWheel, hsync, updateState, h]
  · intro hd
    simp [handleMouseMove, hd, hsync]

/-- Witness for C1's amended statement at a synced session with equal
pane scales and an active drag. -/
theorem sync_coupling_witness :
    (handleWheel draggingSession 100 Pane.src).srcState.scale
      = (handleWheel draggingSession 100 Pane.src).aiState.scale ∧
    (handleMouseMove draggingSession 50 60).srcState.x
      = (handleMouseMove draggingSession 50 60).aiState.x ∧
    (handleMouseMove draggingSession 50 60).srcState.y
      = (handleMouseMove draggingSession 50 60).aiState.y := by
  have h := sync_coupling draggingSession 100 50 60 Pane.src Pane.src rfl
  exact ⟨h.2.1 rfl, (h.2.2 rfl).1, (h.2.2 rfl).2⟩

/-- C7 counterexample: opening with empty source and candidate lists does
not fail — `onCompare` on a product with no images still produces an open
session (`compareModalOpen = true`), with both seeded lists empty. -/
theorem open_empty_lists_still_opens :
    (onCompare emptyProduct 0 0 initialAppState).compareModalOpen = true ∧
    (onCompare emptyProduct 0 0 initialAppState).srcListForCompare = [] ∧
    (onCompare emptyProduct 0 0 initialAppState).aiListForCompare = [] :=
  ⟨rfl, rfl, rfl⟩

/-- C7 amended: the open operation performs no emptiness check —
`onCompare` unconditionally yields an open session for every product and
every pair of indices; emptiness is instead guarded at the caller, whose
Compare button is disabled whenever the candidate list is empty (and
whenever the selection is empty). -/
theorem open_unconditional (data : Product) (srcIdx aiIdx : Nat)
    (s : AppState) (d : DetailState) :
    (onCompare data srcIdx aiIdx s).compareModalOpen = true ∧
    compareDisabled { data with generated_images := [] } d = true := by
  refine ⟨rfl, ?_⟩
  simp [compareDisabled]

/-- C10: the session opens at the most recently clicked source index, and
that index is updated even by a toggle that removes the image: after
exclusive-clicking `urlA`, meta-clicking `urlB`, and meta-clicking `urlB`
again, Compare opens at source index 1 (`urlB`), which is not in the
current selection `["urlA"]`. -/
theorem stale_compare_index :
    (handleSourceClick "urlB" 1 metaClick
      (handleSourceClick "urlB" 1 metaClick
        (handleSourceClick "urlA" 0 plainClick
          (effectOnData productAB detailStart)))).selectedSources = ["urlA"] ∧
    (onCompare productAB
      (handleSourceClick "urlB" 1 metaClick
        (handleSourceClick "urlB" 1 metaClick
          (handleSourceClick "urlA" 0 plainClick
            (effectOnData productAB detailStart)))).lastClickedIndex
      0 initialAppState).compareModalOpen = true ∧
    (onCompare productAB
      (handleSourceClick "urlB" 1 metaClick
        (handleSourceClick "urlB" 1 metaClick
          (handleSourceClick "urlA" 0 plainClick
            (effectOnData productAB detailStart)))).lastClickedIndex
      0 initialAppState).srcIndexForCompare = 1 ∧
    productAB.ghost_images.get? 1 = some "urlB" ∧
    "urlB" ∉ (handleSourceClick "urlB" 1 metaClick
      (handleSourceClick "urlB" 1 metaClick
        (handleSourceClick "urlA" 0 plainClick
          (effectOnData productAB detailStart)))).selectedSources := by
  decide

end ImageryWorkflow
